import Mathlib

/-!
Verification development for the mobile-app-generator frontend.

The file shallowly embeds the client-side logic of the repository:

* `src/services/imageAnalysisService.ts` — image compression dimensions
  (`compressImage`), file validation (`validateImageFile`), encoded-image
  inspection (`getImageInfo`), and the create/generate orchestration
  (`generateProjectFromDescription`, `analyzeImageAndGenerateProject`);
* `src/services/apiService.ts` — the axios-based remote client
  (`mobileAppsApi.generateProject`, modelled by `axiosBlobCall`);
* the three pages (`MobileAppFromImagePage`, `MobileAppFromPromptPage`,
  `MobileAppsPage`) — their submit handlers are modelled as pure state
  transitions parameterised by an oracle holding the outcome of every
  remote call, and returning the list of side effects (remote calls made,
  browser downloads triggered) the handler performs.

JavaScript-specific semantics (string truthiness, `String.prototype.trim`,
`Array.prototype.split` indexing, `Math.round`, canvas dimension
truncation) are embedded by small executable helper functions whose names
start with `js` or that are documented at their definition.
-/

/-- The whitespace characters stripped by JavaScript `String.prototype.trim`
(restricted to the ASCII range, which is all this codebase ever feeds it). -/
def jsWhitespace (c : Char) : Bool :=
  c = ' ' || c = '\t' || c = '\n' || c = '\r' || c = '\x0b' || c = '\x0c'

/-- JavaScript `s.trim()`: strip leading and trailing whitespace. -/
def jsTrim (s : String) : String :=
  ⟨((s.data.dropWhile jsWhitespace).reverse.dropWhile jsWhitespace).reverse⟩

/-- JavaScript `s || d` for strings: the empty string is falsy. -/
def jsOrStr (s d : String) : String :=
  if s.isEmpty then d else s

/-- JavaScript `s || d` where `s` is a possibly-undefined string
(`undefined` and the empty string are both falsy). -/
def jsOrOpt (s : Option String) (d : String) : String :=
  match s with
  | none => d
  | some v => jsOrStr v d

/-- JavaScript truthiness of a possibly-undefined string field:
truthy iff present and nonempty. -/
def jsTruthy (s : Option String) : Bool :=
  match s with
  | none => false
  | some v => !v.isEmpty

/-- Decidable prefix test on character lists. -/
def seqStarts : List Char → List Char → Bool
  | [], _ => true
  | _ :: _, [] => false
  | a :: as, b :: bs => a = b && seqStarts as bs

/-- Decidable substring (contiguous) test on character lists; embeds
JavaScript `String.prototype.includes`. -/
def containsSeq (pat : List Char) : List Char → Bool
  | [] => pat.isEmpty
  | c :: t => seqStarts pat (c :: t) || containsSeq pat t

/-- The characters of a string strictly before the first occurrence of `c`;
this is JavaScript `s.split(c)[0]` for a single-character separator. -/
def takeUntil (c : Char) : List Char → List Char
  | [] => []
  | x :: xs => if x = c then [] else x :: takeUntil c xs

/-- The characters after the first occurrence of `c` (`none` when `c` does
not occur); combined with `takeUntil` this is JavaScript `s.split(c)[1]`. -/
def afterFirst (c : Char) : List Char → Option (List Char)
  | [] => none
  | x :: xs => if x = c then some xs else afterFirst c xs

/-- JavaScript `Math.round` on the nonnegative rationals produced by this
codebase: round half up, i.e. the floor of `q + 1/2`. -/
def mathRound (q : ℚ) : ℕ :=
  ⌊q + 1/2⌋₊

/-- `ProjectType` enum from `src/types/api.ts`. -/
inductive ProjectType
  | flutter
  | angular
deriving DecidableEq

/-- String value of a `ProjectType` as it appears in a template literal. -/
def projectTypeStr : ProjectType → String
  | .flutter => "flutter"
  | .angular => "angular"

/-- `MobileAppConfig` interface from `src/types/api.ts`. -/
structure MobileAppConfig where
  package_name : Option String
  version : Option String
  description : Option String
  features : Option (List String)
  theme : Option String
deriving DecidableEq

/-- `MobileApp` record from `src/types/api.ts` (the `Date` fields are kept
as opaque strings). -/
structure MobileApp where
  id : String
  nombre : String
  xml : Option String
  prompt : Option String
  mockup_id : Option String
  project_type : ProjectType
  config : Option MobileAppConfig
  user_id : String
  createdAt : String
  updatedAt : String
deriving DecidableEq

/-- `CreateFromPromptResponse` from `src/types/api.ts`. -/
structure CreateFromPromptResponse where
  id : String
  nombre : String
  prompt : String
  project_type : ProjectType
  config : Option MobileAppConfig
  user_id : String
  createdAt : String
  updatedAt : String
deriving DecidableEq

/-- The part of a browser `File` object the frontend reads: the declared
media type and the byte size. -/
structure JsFile where
  type : String
  size : ℕ
deriving DecidableEq

/-- Result shape of `validateImageFile`. -/
structure ValidationResult where
  valid : Bool
  error : Option String
deriving DecidableEq

/-- Result shape of `getImageInfo`. -/
structure ImageInfo where
  sizeKB : ℕ
  format : String
deriving DecidableEq

/-- `ImageAnalysisResponse` from `imageAnalysisService.ts`. -/
structure ImageAnalysisResponse where
  success : Bool
  description : Option String
  error : Option String
deriving DecidableEq

/-- `ProjectGenerationResponse` from `imageAnalysisService.ts`. -/
structure ProjectGenerationResponse where
  success : Bool
  downloadUrl : Option String
  error : Option String
deriving DecidableEq

/-- Outcome of one `fetch` call as `generateProjectFromDescription` reads
it: the ok flag and status, the `content-type` response header (possibly
absent), the `message` field of the JSON body (possibly absent), and the
object URL the blob would yield. -/
structure FetchResponse where
  ok : Bool
  status : ℕ
  contentType : Option String
  jsonMessage : Option String
  blobUrl : String
deriving DecidableEq

/-- Raw HTTP response behind an axios blob request: status, `content-type`
header, and body bytes (kept opaque as a string). -/
structure HttpBlobResponse where
  status : ℕ
  contentType : Option String
  body : String
deriving DecidableEq

/-- What an axios rejection carries that the pages inspect:
`error.response?.status`. -/
structure AxiosFailure where
  status : Option ℕ
deriving DecidableEq

/-- Observable side effects of a workflow run: remote calls made and
browser downloads triggered (with the chosen filename). -/
inductive WorkflowEvent
  | analyze
  | create
  | generate
  | download (filename : String)
deriving DecidableEq

/-- Dimension logic of `compressImage` (imageAnalysisService.ts lines
28–39): if the decoded width exceeds `maxWidth`, the width becomes
`maxWidth` and the height becomes `height * maxWidth / width`; assigning
that quotient to `canvas.height` truncates it to an integer, hence
natural-number division. Otherwise both dimensions are unchanged. -/
def compressImageDims (width height maxWidth : ℕ) : ℕ × ℕ :=
  if maxWidth < width then (maxWidth, height * maxWidth / width)
  else (width, height)

/-- The `validTypes` allow-list of `validateImageFile`. -/
def validTypes : List String :=
  ["image/jpeg", "image/jpg", "image/png", "image/gif", "image/webp"]

/-- The `maxSize` ceiling of `validateImageFile`: 20 MiB. -/
def maxFileSize : ℕ := 20 * 1024 * 1024

/-- `validateImageFile` (imageAnalysisService.ts lines 229–249). -/
def validateImageFile (file : JsFile) : ValidationResult :=
  if !(validTypes.contains file.type) then
    ⟨false, some "Tipo de archivo no válido. Use JPEG, PNG, GIF o WebP."⟩
  else if maxFileSize < file.size then
    ⟨false, some "El archivo es demasiado grande. Máximo 20MB."⟩
  else
    ⟨true, none⟩

/-- The four raster image formats of the allow-list; `image/jpeg` and
`image/jpg` are two media-type spellings of the same JPEG format. This
definition only names the formats for the statement of the validator
theorem; `validateImageFile` itself tests the five-string list. -/
inductive RasterFormat
  | jpeg
  | png
  | gif
  | webp
deriving DecidableEq

/-- The raster format a media-type string declares, `none` when it is not
on the allow-list. -/
def declaredRasterFormat (t : String) : Option RasterFormat :=
  if t = "image/jpeg" || t = "image/jpg" then some .jpeg
  else if t = "image/png" then some .png
  else if t = "image/gif" then some .gif
  else if t = "image/webp" then some .webp
  else none

/-- `getImageInfo` (imageAnalysisService.ts lines 254–264).
`sizeKB` is `Math.round(((length * 3) / 4) / 1024)`; `format` is
`base64Image.split(';')[0].split('/')[1] || 'unknown'` (the `[1]` entry is
the segment between the first and second `/`, `undefined` when there is no
`/`; `undefined` and the empty string both fall back to `"unknown"`). -/
def getImageInfo (base64Image : String) : ImageInfo :=
  let sizeKB := mathRound (((base64Image.length : ℚ) * 3 / 4) / 1024)
  let part0 := takeUntil ';' base64Image.data
  let format :=
    match afterFirst '/' part0 with
    | none => "unknown"
    | some rest =>
      let f := takeUntil '/' rest
      if f.isEmpty then "unknown" else (⟨f⟩ : String)
  ⟨sizeKB, format⟩

/-- Does the `content-type` header contain `application/zip`
(`headers.get('content-type')?.includes('application/zip')`, where an
absent header short-circuits to a falsy value)? -/
def ctIncludesZip (ct : Option String) : Bool :=
  match ct with
  | none => false
  | some s => containsSeq "application/zip".data s.data

/-- `generateProjectFromDescription` (imageAnalysisService.ts lines
101–164), abstracted over the outcomes of its two `fetch` calls (create,
then generate). Besides the response it returns the list of remote calls
it performed. A non-ok create aborts before the generate call; an ok
generate response is a success only when its content type contains
`application/zip`, otherwise the JSON body's `message` (or a default) is
returned as the error. -/
def generateProjectFromDescription (createResp genResp : FetchResponse) :
    ProjectGenerationResponse × List WorkflowEvent :=
  if createResp.ok = false then
    (⟨false, none, some ("Error creando aplicación: " ++ toString createResp.status)⟩,
      [.create])
  else if genResp.ok = false then
    (⟨false, none, some ("Error generando proyecto: " ++ toString genResp.status)⟩,
      [.create, .generate])
  else if ctIncludesZip genResp.contentType then
    (⟨true, some genResp.blobUrl, none⟩, [.create, .generate])
  else
    (⟨false, none, some (jsOrOpt genResp.jsonMessage ("Error generando proyecto"))⟩,
      [.create, .generate])

/-- `analyzeImageAndGenerateProject` (imageAnalysisService.ts lines
169–201), abstracted over the analysis outcome and the two fetch outcomes
of the generation step. When the analysis is unsuccessful or returns no
(truthy) description, it fails with the analysis error (or a default) and
performs no further call. -/
def analyzeImageAndGenerateProject (analysisResult : ImageAnalysisResponse)
    (createResp genResp : FetchResponse) :
    ProjectGenerationResponse × List WorkflowEvent :=
  if !analysisResult.success || !jsTruthy analysisResult.description then
    (⟨false, none, some (jsOrOpt analysisResult.error ("Error analizando imagen"))⟩,
      [.analyze])
  else
    let r := generateProjectFromDescription createResp genResp
    (r.1, .analyze :: r.2)

/-- `mobileAppsApi.generateProject` (apiService.ts lines 728–738): an axios
call with `responseType: 'blob'` resolves with the body for any 2xx status
— the content type is never inspected — and rejects with the status
otherwise. -/
def axiosBlobCall (r : HttpBlobResponse) : Except AxiosFailure String :=
  if 200 ≤ r.status ∧ r.status < 300 then .ok r.body
  else .error ⟨some r.status⟩

/-- The error classification of `MobileAppFromPromptPage.handleSubmit`'s
catch block: 400 → precondition message, 500 → server message, anything
else → generic message. -/
def classifyPromptError (f : AxiosFailure) : String :=
  if f.status = some 400 then "Verifica que la descripción sea válida"
  else if f.status = some 500 then "Error interno del servidor. Intenta más tarde."
  else "Error creando la aplicación. Intenta con una descripción más específica."

/-- `CreationMethod` tags produced by `MobileAppsPage.getCreationMethod`
(the `text` field of the returned object). -/
inductive CreationMethod
  | ia
  | xml
  | mockup
  | manual
deriving DecidableEq

/-- `MobileAppsPage.getCreationMethod`: IA when the record has a truthy
prompt and neither a truthy xml nor a truthy mockup_id; else XML when xml
is truthy; else Mockup when mockup_id is truthy; else Manual. -/
def getCreationMethod (app : MobileApp) : CreationMethod :=
  if jsTruthy app.prompt && !jsTruthy app.xml && !jsTruthy app.mockup_id then .ia
  else if jsTruthy app.xml then .xml
  else if jsTruthy app.mockup_id then .mockup
  else .manual

/-- `formData` of `MobileAppFromImagePage`. -/
structure ImageFormData where
  projectName : String
  projectType : ProjectType
  imageFile : Option JsFile
deriving DecidableEq

/-- The state hooks of `MobileAppFromImagePage`. -/
structure ImagePageState where
  formData : ImageFormData
  isAnalyzing : Bool
  isGenerating : Bool
  isCompressing : Bool
  analysisResult : String
  error : String
  success : String
  imagePreview : String
  imageInfo : Option ImageInfo
  fileInputValue : String
deriving DecidableEq

/-- Oracle for `handleAnalyzeImage`: the outcome of `fileToBase64` (which
can reject when decoding fails) and the `ImageAnalysisResponse` the
analyze call resolves with (`analyzeImageForProject` never throws: it
catches transport errors into a `success: false` response itself). -/
structure AnalyzeOracle where
  encode : Except String String
  analysis : ImageAnalysisResponse

/-- `MobileAppFromImagePage.handleAnalyzeImage` (part_000 lines 79–108) as
a state transition. It requires a selected image; then clears the error
and the held analysis result, runs encode + analyze, and either stores the
new description with a success message or surfaces the failure message. -/
def handleAnalyzeImage (s : ImagePageState) (o : AnalyzeOracle) : ImagePageState :=
  match s.formData.imageFile with
  | none => { s with error := "Por favor selecciona una imagen" }
  | some _ =>
    let s1 := { s with isAnalyzing := true, error := "", analysisResult := "" }
    let s2 :=
      match o.encode with
      | .error msg => { s1 with error := msg }
      | .ok _ =>
        if o.analysis.success && jsTruthy o.analysis.description then
          { s1 with
              analysisResult := (o.analysis.description).getD "",
              success := "¡Imagen analizada correctamente! Revisa la descripción y genera el proyecto." }
        else
          { s1 with error := jsOrOpt o.analysis.error ("Error analizando imagen") }
    { s2 with isAnalyzing := false }

/-- Oracle for `handleGenerateProject` on the image page: the encode
outcome, the analysis response, and the two fetch outcomes inside
`generateProjectFromDescription`. -/
structure ImageGenOracle where
  encode : Except String String
  analysis : ImageAnalysisResponse
  createResp : FetchResponse
  genResp : FetchResponse

/-- Default `formData` of the image page (the value the form is reset to
after a successful generation). -/
def imageFormDefault : ImageFormData :=
  ⟨"", .flutter, none⟩

/-- `MobileAppFromImagePage.handleGenerateProject` (part_000 lines
110–170) as a state transition returning the triggered events. Requires a
selected image and a non-blank project name; on full success it triggers a
download named from the form's project name and type and resets the
transient state; on failure it surfaces the step's error message. -/
def handleGenerateProject (s : ImagePageState) (o : ImageGenOracle) :
    ImagePageState × List WorkflowEvent :=
  match s.formData.imageFile with
  | none => ({ s with error := "Por favor selecciona una imagen" }, [])
  | some _ =>
    if (jsTrim s.formData.projectName).isEmpty then
      ({ s with error := "Por favor ingresa un nombre para el proyecto" }, [])
    else
      let s1 := { s with isGenerating := true, error := "", success := "" }
      match o.encode with
      | .error msg => ({ s1 with error := msg, isGenerating := false }, [])
      | .ok _ =>
        let r := analyzeImageAndGenerateProject o.analysis o.createResp o.genResp
        if r.1.success && jsTruthy r.1.downloadUrl then
          let filename :=
            s.formData.projectName ++ "-" ++ projectTypeStr s.formData.projectType ++ ".zip"
          ({ s1 with
              success := "¡Proyecto " ++ projectTypeStr s.formData.projectType ++
                " generado y descargado correctamente!",
              formData := imageFormDefault,
              imagePreview := "",
              imageInfo := none,
              analysisResult := "",
              fileInputValue := "",
              isGenerating := false },
            r.2 ++ [.download filename])
        else
          ({ s1 with
              error := jsOrOpt r.1.error ("Error generando proyecto"),
              isGenerating := false },
            r.2)

/-- The state hooks of `MobileAppFromPromptPage` (the `formData` fields
are inlined). -/
structure PromptPageState where
  loading : Bool
  error : Option String
  success : Bool
  prompt : String
  nombre : String
  project_type : ProjectType
deriving DecidableEq

/-- Oracle for the prompt page submit: the outcome of
`mobileAppsApi.createFromPrompt` and the raw HTTP response behind
`mobileAppsApi.generateProject`. -/
structure PromptOracle where
  createResult : Except AxiosFailure CreateFromPromptResponse
  generateHttp : HttpBlobResponse

/-- `MobileAppFromPromptPage.handleSubmit` (part_000 lines 418–479) as a
state transition returning the triggered events. Validation: reject when
the trimmed prompt is empty, then when the raw (untrimmed) prompt length
is below 10. On success the download filename is built from the
server-returned record: `(app.nombre || 'mobile-app') + '-' +
app.project_type + '.zip'`. -/
def promptHandleSubmit (s : PromptPageState) (o : PromptOracle) :
    PromptPageState × List WorkflowEvent :=
  if (jsTrim s.prompt).isEmpty then
    ({ s with error := some "La descripción de la aplicación es requerida" }, [])
  else if s.prompt.length < 10 then
    ({ s with error := some "La descripción debe tener al menos 10 caracteres" }, [])
  else
    let s1 := { s with loading := true, error := none }
    match o.createResult with
    | .error f =>
      ({ s1 with error := some (classifyPromptError f), loading := false },
        [.create])
    | .ok app =>
      match axiosBlobCall o.generateHttp with
      | .error f =>
        ({ s1 with error := some (classifyPromptError f), loading := false },
          [.create, .generate])
      | .ok _ =>
        let filename :=
          jsOrStr app.nombre ("mobile-app") ++ "-" ++ projectTypeStr app.project_type ++ ".zip"
        ({ s1 with success := true, loading := false },
          [.create, .generate, .download filename])

/-- The state of `MobileAppsPage` read by its generate handler. -/
structure AppsPageState where
  generatingId : Option String
  error : Option String
deriving DecidableEq

/-- `MobileAppsPage.handleGenerate` (part_001 lines 32–52) as a state
transition returning the triggered events: any resolved blob is downloaded
as `app.nombre + '-' + app.project_type + '.zip'`. -/
def appsHandleGenerate (app : MobileApp) (gen : HttpBlobResponse) (s : AppsPageState) :
    AppsPageState × List WorkflowEvent :=
  match axiosBlobCall gen with
  | .ok _ =>
    ({ s with generatingId := none },
      [.generate, .download (app.nombre ++ "-" ++ projectTypeStr app.project_type ++ ".zip")])
  | .error _ =>
    ({ s with
        error := some ("Error generando proyecto " ++ projectTypeStr app.project_type),
        generatingId := none },
      [.generate])

/-- Disabled condition of the image page's "Analizar Imagen" button
(part_000 line 296). -/
def analyzeButtonDisabled (s : ImagePageState) : Bool :=
  s.formData.imageFile.isNone || s.isAnalyzing || s.isCompressing

/-- Disabled condition of the image page's "Generar Proyecto" button
(part_000 line 311). -/
def generateButtonDisabled (s : ImagePageState) : Bool :=
  s.formData.imageFile.isNone || (jsTrim s.formData.projectName).isEmpty ||
    s.isGenerating || s.isCompressing

/-- Disabled condition of the image page's file input (part_000 line 253). -/
def fileInputDisabled (s : ImagePageState) : Bool :=
  s.isCompressing

/-- Disabled condition of the prompt page's submit button (part_000 line
637). -/
def promptSubmitDisabled (s : PromptPageState) : Bool :=
  s.loading || (jsTrim s.prompt).isEmpty

/-- Is some asynchronous step of the image page in flight? -/
def imageStepInFlight (s : ImagePageState) : Bool :=
  s.isCompressing || s.isAnalyzing || s.isGenerating

/-- Concrete prompt-page state with a valid prompt (35 characters), a
user-supplied request name `minombre`, and Flutter selected. -/
def cexValidPromptState : PromptPageState :=
  ⟨false, none, false, "crea una app de gimnasio y fitness", "minombre", .flutter⟩

/-- Concrete prompt-page state whose prompt is ten blanks followed by
`ab`: raw length 12, trimmed length 2. -/
def cexShortTrimState : PromptPageState :=
  ⟨false, none, false, "          ab", "", .flutter⟩

/-- Concrete created-app record as returned by the server, whose `nombre`
differs from the request's. -/
def cexServerApp : CreateFromPromptResponse :=
  ⟨"id-1", "ServerApp", "prompt enriquecido", .flutter, none, "user-1", "2025-01-01", "2025-01-01"⟩

/-- Prompt oracle: create succeeds with `cexServerApp`; the generate HTTP
response is 200 with a JSON (non-archive) content type. -/
def cexJsonOracle : PromptOracle :=
  ⟨.ok cexServerApp, ⟨200, some "application/json", "json-error-body"⟩⟩

/-- Prompt oracle: create succeeds with `cexServerApp`; the generate HTTP
response is 200 with an archive content type. -/
def cexZipOracle : PromptOracle :=
  ⟨.ok cexServerApp, ⟨200, some "application/zip", "zip-bytes"⟩⟩

/-- A small PNG file. -/
def cexImgFile : JsFile := ⟨"image/png", 1000⟩

/-- Image-page state holding a selected file, a preview, image info, a
project name, and a previously obtained analysis description. -/
def cexImgState : ImagePageState :=
  ⟨⟨"mi-app", .flutter, some cexImgFile⟩, false, false, false,
    "analisis previo", "", "ok", "preview", some ⟨12, "jpeg"⟩, "f.png"⟩

/-- Analyze oracle whose remote analysis fails with error `X`. -/
def cexAnalyzeFailOracle : AnalyzeOracle :=
  ⟨.ok "b64", ⟨false, none, some "X"⟩⟩

/-- A successful create fetch outcome. -/
def cexCreateOk : FetchResponse := ⟨true, 201, none, none, "app-record"⟩

/-- A successful generate fetch outcome with an archive content type. -/
def cexGenZip : FetchResponse := ⟨true, 200, some "application/zip", none, "blob:url-1"⟩

/-- An ok (2xx) generate fetch outcome with a JSON content type. -/
def cexGenJson : FetchResponse := ⟨true, 200, some "application/json", some "detalle", "blob:url-2"⟩

/-- Image-generation oracle whose analysis step fails with error `X`. -/
def cexImageGenAnalyzeFail : ImageGenOracle :=
  ⟨.ok "b64", ⟨false, none, some "X"⟩, cexCreateOk, cexGenZip⟩

/-- Image-generation oracle where every step succeeds. -/
def cexImageGenOk : ImageGenOracle :=
  ⟨.ok "b64", ⟨true, some "descripcion detallada", none⟩, cexCreateOk, cexGenZip⟩

/-- Image-page state whose analyze step is in flight. -/
def cexBusyState : ImagePageState :=
  ⟨⟨"mi-app", .flutter, some cexImgFile⟩, true, false, false,
    "", "", "", "", none, ""⟩

/-- Image-page state whose compression step is in flight. -/
def cexCompressingState : ImagePageState :=
  ⟨⟨"", .flutter, none⟩, false, false, true, "", "", "", "", none, ""⟩

/-- Prompt-page state whose submission is in flight. -/
def cexLoadingPromptState : PromptPageState :=
  ⟨true, none, false, "", "", .flutter⟩

/-- A mobile-app record with no prompt, xml or mockup_id. -/
def cexMobileApp : MobileApp :=
  ⟨"app-1", "MiAppManual", none, none, none, .flutter, none, "user-1", "2025-01-01", "2025-01-01"⟩

/-- A mobile-app record carrying both a prompt and an xml. -/
def cexPromptAndXmlApp : MobileApp :=
  ⟨"app-2", "AppX", some "un xml", some "un prompt", none, .flutter, none, "user-1", "d", "d"⟩

/-- `takeUntil` passes over a block that does not contain the separator. -/
theorem takeUntil_append_of_not_mem {c : Char} {l1 : List Char} (h : c ∉ l1)
    (l2 : List Char) : takeUntil c (l1 ++ l2) = l1 ++ takeUntil c l2 := by
  induction l1 with
  | nil => rfl
  | cons x xs ih =>
    have hx : x ≠ c := fun he => h (he ▸ List.mem_cons_self x xs)
    have hxs : c ∉ xs := fun hm => h (List.mem_cons_of_mem x hm)
    simp [takeUntil, hx, ih hxs]

/-- `takeUntil` keeps a list that does not contain the separator. -/
theorem takeUntil_of_not_mem {c : Char} {l : List Char} (h : c ∉ l) :
    takeUntil c l = l := by
  induction l with
  | nil => rfl
  | cons x xs ih =>
    have hx : x ≠ c := fun he => h (he ▸ List.mem_cons_self x xs)
    have hxs : c ∉ xs := fun hm => h (List.mem_cons_of_mem x hm)
    simp [takeUntil, hx, ih hxs]

/-- `afterFirst` passes over a block that does not contain the separator. -/
theorem afterFirst_append_of_not_mem {c : Char} {l1 : List Char} (h : c ∉ l1)
    (l2 : List Char) : afterFirst c (l1 ++ l2) = afterFirst c l2 := by
  induction l1 with
  | nil => rfl
  | cons x xs ih =>
    have hx : x ≠ c := fun he => h (he ▸ List.mem_cons_self x xs)
    have hxs : c ∉ xs := fun hm => h (List.mem_cons_of_mem x hm)
    simp [afterFirst, hx, ih hxs]

/-- Closed form of the `Math.round(((L * 3) / 4) / 1024)` computation of
`getImageInfo` as a natural-number division. -/
theorem mathRound_ratio (L : ℕ) :
    mathRound (((L : ℚ) * 3 / 4) / 1024) = (3 * L + 2048) / 4096 := by
  unfold mathRound
  have h : ((L : ℚ) * 3 / 4) / 1024 + 1/2 = ((3 * L + 2048 : ℕ) : ℚ) / (4096 : ℕ) := by
    push_cast; ring
  rw [h, Nat.floor_div_nat, Nat.floor_natCast]

/-- The five-string allow-list of `validateImageFile` contains exactly the
media types that declare one of the four raster formats. -/
theorem validTypes_contains_iff_raster (t : String) :
    validTypes.contains t = (declaredRasterFormat t).isSome := by
  unfold validTypes declaredRasterFormat
  by_cases h1 : t = "image/jpeg" <;> by_cases h2 : t = "image/jpg" <;>
    by_cases h3 : t = "image/png" <;> by_cases h4 : t = "image/gif" <;>
      by_cases h5 : t = "image/webp" <;>
    simp [h1, h2, h3, h4, h5, List.contains]

/-- Claim C1: for every image whose decoded width is at most `maxWidth`,
`compressImage` preserves the pixel dimensions exactly; for every image
whose width exceeds `maxWidth`, the output width equals `maxWidth` and the
output height/width ratio equals the input height/width ratio within the
rounding tolerance of one part in `maxWidth`: the two inequalities state
`h2 / maxWidth ≤ h / w < (h2 + 1) / maxWidth` for the output height `h2`,
i.e. `0 ≤ h / w − h2 / maxWidth < 1 / maxWidth`. -/
theorem compressImage_dims_spec (w h m : ℕ) :
    (w ≤ m → compressImageDims w h m = (w, h)) ∧
    (m < w →
      (compressImageDims w h m).1 = m ∧
      (compressImageDims w h m).2 * w ≤ h * m ∧
      h * m < ((compressImageDims w h m).2 + 1) * w) := by
  constructor
  · intro hle
    simp [compressImageDims, Nat.not_lt.mpr hle]
  · intro hlt
    have hw : 0 < w := Nat.lt_of_le_of_lt (Nat.zero_le m) hlt
    simp only [compressImageDims, if_pos hlt]
    exact ⟨trivial, Nat.div_mul_le_self _ _, (Nat.div_lt_iff_lt_mul hw).1 (Nat.lt_succ_self _)⟩

/-- Witness for C1: the spec's own example (5000×3000 at max 1024 gives
width 1024, height 614) and an untouched 800×600. -/
theorem compressImage_dims_spec_witness :
    (compressImageDims 5000 3000 1024).1 = 1024 ∧
    (compressImageDims 5000 3000 1024).2 * 5000 ≤ 3000 * 1024 ∧
    3000 * 1024 < ((compressImageDims 5000 3000 1024).2 + 1) * 5000 ∧
    compressImageDims 5000 3000 1024 = (1024, 614) ∧
    compressImageDims 800 600 1024 = (800, 600) := by
  refine ⟨((compressImage_dims_spec 5000 3000 1024).2 (by decide)).1,
    ((compressImage_dims_spec 5000 3000 1024).2 (by decide)).2.1,
    ((compressImage_dims_spec 5000 3000 1024).2 (by decide)).2.2,
    by decide,
    (compressImage_dims_spec 800 600 1024).1 (by decide)⟩

/-- Claim C2: `validateImageFile` rejects every file whose declared media
type names none of the four allowed raster formats (JPEG — spelled
`image/jpeg` or `image/jpg` —, PNG, GIF, WebP) regardless of its size;
rejects every allowed-type file whose byte size exceeds 20 MiB; and
accepts every other file. -/
theorem validateImageFile_spec (f : JsFile) :
    ((declaredRasterFormat f.type).isNone = true → (validateImageFile f).valid = false) ∧
    (maxFileSize < f.size → (validateImageFile f).valid = false) ∧
    ((declaredRasterFormat f.type).isSome = true → f.size ≤ maxFileSize →
      (validateImageFile f).valid = true) := by
  refine ⟨?_, ?_, ?_⟩
  · intro hn
    have hc : validTypes.contains f.type = false := by
      rw [validTypes_contains_iff_raster]
      cases hd : declaredRasterFormat f.type with
      | none => rfl
      | some v => rw [hd] at hn; simp at hn
    have hm : f.type ∉ validTypes := by simpa using hc
    simp [validateImageFile, hm]
  · intro hs
    by_cases hm : f.type ∈ validTypes
    · simp [validateImageFile, hm, hs]
    · simp [validateImageFile, hm]
  · intro ho hsz
    have hc : validTypes.contains f.type = true := by
      rw [validTypes_contains_iff_raster]; exact ho
    have hm : f.type ∈ validTypes := by simpa using hc
    simp [validateImageFile, hm, Nat.not_lt.mpr hsz]

/-- Witness for C2: a BMP of any size is rejected, an oversized PNG is
rejected, a small PNG is accepted. -/
theorem validateImageFile_spec_witness :
    (validateImageFile ⟨"image/bmp", 1000⟩).valid = false ∧
    (validateImageFile ⟨"image/png", 20 * 1024 * 1024 + 1⟩).valid = false ∧
    (validateImageFile ⟨"image/png", 1000⟩).valid = true := by
  refine ⟨(validateImageFile_spec ⟨"image/bmp", 1000⟩).1 (by decide),
    (validateImageFile_spec ⟨"image/png", 20 * 1024 * 1024 + 1⟩).2.1 (by decide),
    (validateImageFile_spec ⟨"image/png", 1000⟩).2.2 (by decide) (by decide)⟩

/-- Counterexample to Claim C3: the prompt consisting of ten blanks
followed by `ab` has length 2 after trimming — below 10 — yet the
submission is accepted: the remote create call is made and no validation
error is surfaced, because the 10-character check runs on the raw,
untrimmed prompt (length 12). -/
theorem promptSubmit_trimmed_short_accepted :
    (jsTrim cexShortTrimState.prompt).length < 10 ∧
    WorkflowEvent.create ∈ (promptHandleSubmit cexShortTrimState cexZipOracle).2 ∧
    (promptHandleSubmit cexShortTrimState cexZipOracle).1.error = none := by decide

/-- Claim C3 as amended: the submission is rejected (a validation error is
surfaced and no remote call is made) when the trimmed prompt is empty or
when the raw, untrimmed prompt length is below 10; it is accepted (the
create call is made) when the trimmed prompt is nonempty and the raw
length is at least 10 — the 10-character minimum is checked before
trimming. -/
theorem promptSubmit_validation (s : PromptPageState) (o : PromptOracle) :
    ((jsTrim s.prompt).isEmpty = true ∨ s.prompt.length < 10 →
      (promptHandleSubmit s o).2 = [] ∧
      ((promptHandleSubmit s o).1.error).isSome = true) ∧
    ((jsTrim s.prompt).isEmpty = false → 10 ≤ s.prompt.length →
      WorkflowEvent.create ∈ (promptHandleSubmit s o).2) := by
  constructor
  · intro hrej
    rcases hrej with he | hl
    · simp [promptHandleSubmit, he]
    · by_cases he : (jsTrim s.prompt).isEmpty
      · simp [promptHandleSubmit, he]
      · simp [promptHandleSubmit, he, hl]
  · intro he hl
    have hl' : ¬ s.prompt.length < 10 := Nat.not_lt.mpr hl
    cases hc : o.createResult with
    | error f => simp [promptHandleSubmit, he, hl', hc]
    | ok app =>
      cases hg : axiosBlobCall o.generateHttp with
      | error f => simp [promptHandleSubmit, he, hl', hc, hg]
      | ok b => simp [promptHandleSubmit, he, hl', hc, hg]

/-- Witness for the amended C3: a five-character prompt is rejected with
no call; the 35-character example prompt is accepted. -/
theorem promptSubmit_validation_witness :
    ((promptHandleSubmit ⟨false, none, false, "corto", "", .flutter⟩ cexZipOracle).2 = [] ∧
      ((promptHandleSubmit ⟨false, none, false, "corto", "", .flutter⟩ cexZipOracle).1.error).isSome = true) ∧
    WorkflowEvent.create ∈ (promptHandleSubmit cexValidPromptState cexZipOracle).2 := by
  exact ⟨(promptSubmit_validation ⟨false, none, false, "corto", "", .flutter⟩ cexZipOracle).1
      (Or.inr (by decide)),
    (promptSubmit_validation cexValidPromptState cexZipOracle).2 (by decide) (by decide)⟩

/-- Claim C4: when the analysis step returns `success: false` with a
nonempty error `x`, `analyzeImageAndGenerateProject` returns exactly that
error and performs no create or generate call; a failing create likewise
aborts before the generate call; and the image page's generate handler
surfaces `x` as its error state while triggering only the analyze call. -/
theorem analyzeImage_failure_aborts (x : String) (hx : x.isEmpty = false)
    (d : Option String) (cr gr : FetchResponse) :
    (analyzeImageAndGenerateProject ⟨false, d, some x⟩ cr gr).1 =
      ⟨false, none, some x⟩ ∧
    (analyzeImageAndGenerateProject ⟨false, d, some x⟩ cr gr).2 = [.analyze] ∧
    (cr.ok = false → (generateProjectFromDescription cr gr).2 = [.create]) ∧
    (∀ (s : ImagePageState) (o : ImageGenOracle) (f : JsFile) (b : String),
      s.formData.imageFile = some f →
      (jsTrim s.formData.projectName).isEmpty = false →
      o.encode = .ok b →
      o.analysis = ⟨false, d, some x⟩ →
      (handleGenerateProject s o).1.error = x ∧
      (handleGenerateProject s o).2 = [.analyze]) := by
  have hfail : ∀ cr' gr' : FetchResponse,
      analyzeImageAndGenerateProject ⟨false, d, some x⟩ cr' gr' =
        (⟨false, none, some x⟩, [.analyze]) := by
    intro cr' gr'
    simp [analyzeImageAndGenerateProject, jsOrOpt, jsOrStr, hx]
  refine ⟨by rw [hfail], by rw [hfail], ?_, ?_⟩
  · intro hcr
    simp [generateProjectFromDescription, hcr]
  · intro s o f b h1 h2 h3 h4
    simp [handleGenerateProject, h1, h2, h3, h4, hfail, jsTruthy, jsOrOpt, jsOrStr, hx]

/-- Witness for C4 at concrete inputs: analysis failing with `X` yields
error `X`, only the analyze step, and the handler state error `X`. -/
theorem analyzeImage_failure_aborts_witness :
    (analyzeImageAndGenerateProject ⟨false, none, some "X"⟩ cexCreateOk cexGenZip).1 =
      ⟨false, none, some "X"⟩ ∧
    (handleGenerateProject cexImgState cexImageGenAnalyzeFail).1.error = "X" ∧
    (handleGenerateProject cexImgState cexImageGenAnalyzeFail).2 = [.analyze] := by
  have h := analyzeImage_failure_aborts "X" (by decide) none cexCreateOk cexGenZip
  have h4 := h.2.2.2 cexImgState cexImageGenAnalyzeFail cexImgFile "b64"
    rfl (by decide) rfl rfl
  exact ⟨h.1, h4.1, h4.2⟩

/-- Counterexample to Claim C5: a generate-project response with status
200 and content type `application/json` — not an archive — is treated by
the prompt workflow as a fully successful generation: the state becomes
succeeded and the body is downloaded as a `.zip` artifact, because the
axios-based `generateProject` never inspects the content type. -/
theorem generateProject_json_treated_as_artifact :
    ctIncludesZip cexJsonOracle.generateHttp.contentType = false ∧
    (promptHandleSubmit cexValidPromptState cexJsonOracle).1.success = true ∧
    (promptHandleSubmit cexValidPromptState cexJsonOracle).2 =
      [.create, .generate, .download "ServerApp-flutter.zip"] := by decide

/-- Claim C5 as amended: only the fetch-based image-workflow caller
(`generateProjectFromDescription`) treats the response content type as
authoritative — an ok response whose content type does not contain
`application/zip` is a failure with no download URL; the axios-based
`generateProject` resolves any 2xx response with its body as a blob
without inspecting the content type, so its callers (the prompt page and
the apps page) treat such a response as a downloadable artifact. -/
theorem generateProject_contentType_handling :
    (∀ cr gr : FetchResponse, cr.ok = true → gr.ok = true →
      ctIncludesZip gr.contentType = false →
      (generateProjectFromDescription cr gr).1.success = false ∧
      (generateProjectFromDescription cr gr).1.downloadUrl = none) ∧
    (∀ r : HttpBlobResponse, 200 ≤ r.status → r.status < 300 →
      axiosBlobCall r = .ok r.body) := by
  constructor
  · intro cr gr hc hg hz
    simp [generateProjectFromDescription, hc, hg, hz]
  · intro r h1 h2
    simp [axiosBlobCall, h1, h2]

/-- Witness for the amended C5: a 2xx JSON generate response is a failure
for the fetch path and a resolved blob for the axios path. -/
theorem generateProject_contentType_handling_witness :
    ((generateProjectFromDescription cexCreateOk cexGenJson).1.success = false ∧
      (generateProjectFromDescription cexCreateOk cexGenJson).1.downloadUrl = none) ∧
    axiosBlobCall ⟨200, some "application/json", "json-error-body"⟩ =
      .ok "json-error-body" := by
  exact ⟨generateProject_contentType_handling.1 cexCreateOk cexGenJson rfl rfl (by decide),
    generateProject_contentType_handling.2 ⟨200, some "application/json", "json-error-body"⟩
      (by decide) (by decide)⟩

/-- Counterexample to Claim C6: with a previously held analysis
description `analisis previo`, a failing analyze action surfaces the
failure message `X` but does not leave the held description unchanged —
`handleAnalyzeImage` clears it to the empty string before the remote call
and a failure never restores it. -/
theorem analyze_failure_clears_description :
    cexImgState.analysisResult = "analisis previo" ∧
    (handleAnalyzeImage cexImgState cexAnalyzeFailOracle).error = "X" ∧
    (handleAnalyzeImage cexImgState cexAnalyzeFailOracle).analysisResult = "" := by decide

/-- Claim C6 as amended: when the explicit analyze action fails, the
failure message is surfaced and the selected image, the preview, the image
info, the project name (the whole form data) and the success message are
left unchanged, but the previously held analysis description is cleared to
the empty string (it is reset before the remote call and not restored). -/
theorem handleAnalyzeImage_failure (s : ImagePageState) (o : AnalyzeOracle)
    (f : JsFile) (b : String)
    (h1 : s.formData.imageFile = some f) (h2 : o.encode = .ok b)
    (h3 : (o.analysis.success && jsTruthy o.analysis.description) = false) :
    (handleAnalyzeImage s o).error = jsOrOpt o.analysis.error ("Error analizando imagen") ∧
    (handleAnalyzeImage s o).analysisResult = "" ∧
    (handleAnalyzeImage s o).formData = s.formData ∧
    (handleAnalyzeImage s o).imagePreview = s.imagePreview ∧
    (handleAnalyzeImage s o).imageInfo = s.imageInfo ∧
    (handleAnalyzeImage s o).success = s.success ∧
    (handleAnalyzeImage s o).isAnalyzing = false := by
  simp [handleAnalyzeImage, h1, h2, h3]

/-- Witness for the amended C6 at the concrete failing run. -/
theorem handleAnalyzeImage_failure_witness :
    (handleAnalyzeImage cexImgState cexAnalyzeFailOracle).error = "X" ∧
    (handleAnalyzeImage cexImgState cexAnalyzeFailOracle).success = cexImgState.success ∧
    (handleAnalyzeImage cexImgState cexAnalyzeFailOracle).formData = cexImgState.formData := by
  have h := handleAnalyzeImage_failure cexImgState cexAnalyzeFailOracle cexImgFile "b64"
    rfl rfl (by decide)
  exact ⟨by rw [h.1]; decide, h.2.2.2.2.2.1, h.2.2.1⟩

/-- Counterexample to Claim C7: with the analyze step in flight
(`isAnalyzing = true`), an image and a nonempty project name selected, the
generate affordance is still enabled, so a second submission can overlap
the in-flight analyze step. -/
theorem inflight_generate_enabled :
    imageStepInFlight cexBusyState = true ∧
    generateButtonDisabled cexBusyState = false := by decide

/-- Claim C7 as amended: each affordance is disabled while its own step or
compression is in flight — compression disables the file input and both
buttons, analyzing disables the analyze button, generating disables the
generate button, and loading disables the prompt submit — but the analyze
and generate buttons of the image screen are not disabled during each
other's step, so analyze/generate submissions can overlap. -/
theorem busy_flags_disable_affordances (s : ImagePageState) (p : PromptPageState) :
    (s.isCompressing = true →
      analyzeButtonDisabled s = true ∧ generateButtonDisabled s = true ∧
      fileInputDisabled s = true) ∧
    (s.isAnalyzing = true → analyzeButtonDisabled s = true) ∧
    (s.isGenerating = true → generateButtonDisabled s = true) ∧
    (p.loading = true → promptSubmitDisabled p = true) := by
  refine ⟨?_, ?_, ?_, ?_⟩ <;> intro h <;>
    simp [analyzeButtonDisabled, generateButtonDisabled, fileInputDisabled,
      promptSubmitDisabled, h]

/-- Witness for the amended C7 at concrete busy states. -/
theorem busy_flags_disable_affordances_witness :
    analyzeButtonDisabled cexCompressingState = true ∧
    promptSubmitDisabled cexLoadingPromptState = true := by
  exact ⟨((busy_flags_disable_affordances cexCompressingState cexLoadingPromptState).1 rfl).1,
    (busy_flags_disable_affordances cexCompressingState cexLoadingPromptState).2.2.2 rfl⟩

/-- Claim C8: on a well-formed encoded image string
`data:image/<fmt>;base64,<payload>` (format tag free of `;` and `/` and
nonempty), `getImageInfo` reports `sizeKB = round((L * 3 / 4) / 1024)` —
in closed form `(3 * L + 2048) / 4096` for the total length `L` — and
`format` equal to the media subtype embedded before the first `;`. -/
theorem getImageInfo_spec (fmt payload : String)
    (h1 : ';' ∉ fmt.data) (h2 : '/' ∉ fmt.data) (h3 : fmt.data ≠ []) :
    getImageInfo ("data:image/" ++ fmt ++ ";base64," ++ payload) =
      ⟨(3 * ("data:image/" ++ fmt ++ ";base64," ++ payload).length + 2048) / 4096, fmt⟩ := by
  have hdata : ("data:image/" ++ fmt ++ ";base64," ++ payload).data
      = "data:image".data ++
        ('/' :: (fmt.data ++ (';' :: ("base64,".data ++ payload.data)))) := by
    simp [String.data_append]
  have hpart0 : takeUntil ';' ("data:image/" ++ fmt ++ ";base64," ++ payload).data
      = "data:image".data ++ ('/' :: fmt.data) := by
    rw [hdata, takeUntil_append_of_not_mem (by decide)]
    simp only [takeUntil, reduceIte]
    rw [takeUntil_append_of_not_mem h1]
    simp [takeUntil]
  have hafter : afterFirst '/' ("data:image".data ++ ('/' :: fmt.data)) = some fmt.data := by
    rw [afterFirst_append_of_not_mem (by decide)]
    simp [afterFirst]
  have hfe : fmt.data.isEmpty = false := by
    cases hd : fmt.data with
    | nil => exact absurd hd h3
    | cons a as => rfl
  simp only [getImageInfo, hpart0, hafter, mathRound_ratio, takeUntil_of_not_mem h2, hfe]
  rfl

/-- Witness for C8 at a concrete encoded string of length 26:
`sizeKB = (3 * 26 + 2048) / 4096 = 0` and `format = "jpeg"`. -/
theorem getImageInfo_spec_witness :
    getImageInfo ("data:image/" ++ "jpeg" ++ ";base64," ++ "abc") = ⟨0, "jpeg"⟩ := by
  have h := getImageInfo_spec "jpeg" "abc" (by decide) (by decide) (by decide)
  rw [h]
  decide

/-- Counterexample to Claim C9: in the prompt workflow the request's
project name is `minombre`, yet the triggered download is named
`ServerApp-flutter.zip` — from the server-returned record's `nombre` —
not `minombre-flutter.zip` as the claim's naming rule predicts. -/
theorem prompt_download_named_from_record :
    cexValidPromptState.nombre = "minombre" ∧
    cexValidPromptState.project_type = .flutter ∧
    (promptHandleSubmit cexValidPromptState cexZipOracle).2 =
      [.create, .generate, .download "ServerApp-flutter.zip"] ∧
    "ServerApp-flutter.zip" ≠ "minombre-flutter.zip" := by decide

/-- Claim C9 as amended: every fully successful generation downloads a
file named `{name}-{projectType}.zip`, where the name is the request's
project name only in the image workflow; the prompt workflow uses the
server-returned record's `nombre` (falling back to `mobile-app` when it is
empty) and the record's `project_type`, and the apps page uses the listed
record's `nombre` and `project_type`. -/
theorem download_filename_spec :
    (∀ (s : ImagePageState) (o : ImageGenOracle) (f : JsFile) (b desc : String),
      s.formData.imageFile = some f →
      (jsTrim s.formData.projectName).isEmpty = false →
      o.encode = .ok b →
      o.analysis.success = true →
      o.analysis.description = some desc →
      desc.isEmpty = false →
      o.createResp.ok = true →
      o.genResp.ok = true →
      ctIncludesZip o.genResp.contentType = true →
      (o.genResp.blobUrl).isEmpty = false →
      (handleGenerateProject s o).2 =
        [.analyze, .create, .generate,
          .download (s.formData.projectName ++ "-" ++
            projectTypeStr s.formData.projectType ++ ".zip")]) ∧
    (∀ (s : PromptPageState) (o : PromptOracle) (app : CreateFromPromptResponse),
      (jsTrim s.prompt).isEmpty = false →
      10 ≤ s.prompt.length →
      o.createResult = .ok app →
      200 ≤ o.generateHttp.status →
      o.generateHttp.status < 300 →
      (promptHandleSubmit s o).2 =
        [.create, .generate,
          .download (jsOrStr app.nombre ("mobile-app") ++ "-" ++
            projectTypeStr app.project_type ++ ".zip")]) ∧
    (∀ (app : MobileApp) (gen : HttpBlobResponse) (st : AppsPageState),
      200 ≤ gen.status →
      gen.status < 300 →
      (appsHandleGenerate app gen st).2 =
        [.generate,
          .download (app.nombre ++ "-" ++ projectTypeStr app.project_type ++ ".zip")]) := by
  refine ⟨?_, ?_, ?_⟩
  · intro s o f b desc h1 h2 h3 h4 h5 h6 h7 h8 h9 h10
    have hr : analyzeImageAndGenerateProject o.analysis o.createResp o.genResp =
        (⟨true, some o.genResp.blobUrl, none⟩, [.analyze, .create, .generate]) := by
      simp [analyzeImageAndGenerateProject, generateProjectFromDescription,
        h4, h5, h6, h7, h8, h9, jsTruthy]
    simp [handleGenerateProject, h1, h2, h3, hr, jsTruthy, h10]
  · intro s o app he hl hc h1 h2
    have hg : axiosBlobCall o.generateHttp = .ok o.generateHttp.body := by
      simp [axiosBlobCall, h1, h2]
    simp [promptHandleSubmit, he, Nat.not_lt.mpr hl, hc, hg]
  · intro app gen st h1 h2
    have hg : axiosBlobCall gen = .ok gen.body := by
      simp [axiosBlobCall, h1, h2]
    simp [appsHandleGenerate, hg]

/-- Witness for the amended C9: concrete successful runs of all three
workflows with their resulting download filenames. -/
theorem download_filename_spec_witness :
    (handleGenerateProject cexImgState cexImageGenOk).2 =
      [.analyze, .create, .generate, .download "mi-app-flutter.zip"] ∧
    (promptHandleSubmit cexValidPromptState cexZipOracle).2 =
      [.create, .generate, .download "ServerApp-flutter.zip"] ∧
    (appsHandleGenerate cexMobileApp ⟨200, some "application/zip", "zip-bytes"⟩ ⟨none, none⟩).2 =
      [.generate, .download "MiAppManual-flutter.zip"] := by
  refine ⟨?_, ?_, ?_⟩
  · have h := download_filename_spec.1 cexImgState cexImageGenOk cexImgFile "b64"
      "descripcion detallada" rfl (by decide) rfl rfl rfl (by decide) rfl rfl
      (by decide) (by decide)
    rw [h]; decide
  · have h := download_filename_spec.2.1 cexValidPromptState cexZipOracle cexServerApp
      (by decide) (by decide) rfl (by decide) (by decide)
    rw [h]; decide
  · have h := download_filename_spec.2.2 cexMobileApp
      ⟨200, some "application/zip", "zip-bytes"⟩ ⟨none, none⟩ (by decide) (by decide)
    rw [h]; decide

/-- Claim C10: `getCreationMethod` returns exactly one of the four tags
IA, XML, Mockup, Manual; it returns IA precisely when the record has a
(truthy) prompt and neither a truthy xml nor a truthy mockup_id; a record
carrying both a prompt and an xml is classified XML; a record with none of
the three fields is classified Manual. -/
theorem getCreationMethod_spec (app : MobileApp) :
    (getCreationMethod app = .ia ↔
      jsTruthy app.prompt = true ∧ jsTruthy app.xml = false ∧
        jsTruthy app.mockup_id = false) ∧
    (jsTruthy app.prompt = true → jsTruthy app.xml = true →
      getCreationMethod app = .xml) ∧
    (jsTruthy app.prompt = false → jsTruthy app.xml = false →
      jsTruthy app.mockup_id = false → getCreationMethod app = .manual) ∧
    (getCreationMethod app = .ia ∨ getCreationMethod app = .xml ∨
      getCreationMethod app = .mockup ∨ getCreationMethod app = .manual) := by
  cases hp : jsTruthy app.prompt <;> cases hx : jsTruthy app.xml <;>
    cases hm : jsTruthy app.mockup_id <;>
    simp [getCreationMethod, hp, hx, hm]

/-- Witness for C10: a record with both prompt and xml is XML; a record
with none of the three fields is Manual. -/
theorem getCreationMethod_spec_witness :
    getCreationMethod cexPromptAndXmlApp = .xml ∧
    getCreationMethod cexMobileApp = .manual := by
  exact ⟨(getCreationMethod_spec cexPromptAndXmlApp).2.1 (by decide) (by decide),
    (getCreationMethod_spec cexMobileApp).2.2.1 (by decide) (by decide) (by decide)⟩
